import Mathlib

/-!
# tos-monitor: change-detection and version-lineage pipeline, shallowly embedded

This file embeds the core of the `tos-monitor` repository in Lean 4:

* `app/utils/hashing.py` — the `ContentHasher` (content / structural /
  fingerprint hashes and the comparison helpers);
* `app/storage.py` — the `LocalStorage` blob store together with the
  ToS pointer scheme (`store_tos_document`) and the legacy snapshot
  listing (`get_document_snapshots`, `store_diff`, `get_latest_diff`);
* `app/routes/generate_diffs.py` — `process_document_diff` and
  `load_diff_prompt`;
* `app/llm_client.py` — the prompt formatting step of `compare_documents`.

Modelling conventions:

* The blob store is an association list from relative paths to blobs.
  A blob is either plain text, a serialized snapshot-metadata object, or a
  serialized diff-metadata object; `json.dumps`/`json.loads` round-trips are
  modelled as the identity on the structured constructors, and `json.loads`
  of a non-JSON text blob as a parse failure (the exception path in the
  source).  The raw file text of a serialized object is abstracted by the
  constant `"serialized-json"` (any non-empty string: the source only ever
  tests such text for truthiness).
* SHA-256 hex digests are abstracted by the injective, never-empty tagging
  function `hashHex`; no theorem below relies on any property of SHA-256
  beyond determinism and non-emptiness of digests.
* Python `re.sub` calls are embedded through a small fuelled backtracking
  regex engine (`Re`, `reSub`) restricted to the constructs the source
  uses (case-insensitive literals, character classes, greedy bounded
  repetition, alternation, option, word boundary); whitespace and word
  characters are taken at their ASCII meaning.
* The asynchronous functions of the source are sequential in effect (each
  `await` is an ordinary call); they are embedded as pure state-passing
  functions on the store.  Wall-clock values (`datetime.utcnow()`) become
  explicit parameters.
* The AI collaborator (`LLMClient.compare_documents`) is an oracle
  parameter mapping the fully formatted prompt to `Option String`
  (`none` = empty response or transport error); the number of oracle
  invocations is returned so that "the AI collaborator is (not) invoked"
  is expressible.
-/

set_option linter.unusedVariables false

namespace TosMonitor

/-! ## Character helpers (ASCII reading of Python `str` predicates) -/

/-- Python `\s` over ASCII: space, tab, newline, vertical tab, form feed,
carriage return. -/
def isPySpace (c : Char) : Bool :=
  c == ' ' || c == '\t' || c == '\n' || c == '\x0b' || c == '\x0c' || c == '\r'

/-- Python `\w` over ASCII: letters, digits, underscore. -/
def isWordChar (c : Char) : Bool :=
  c.isAlpha || c.isDigit || c == '_'

/-- `[A-Za-z]`. -/
def isAsciiLetter (c : Char) : Bool :=
  ('A' ≤ c && c ≤ 'Z') || ('a' ≤ c && c ≤ 'z')

/-- The punctuation class `[,.;:!?]` of `_normalize_for_structural_hash`. -/
def isPunctC (c : Char) : Bool :=
  c == ',' || c == '.' || c == ';' || c == ':' || c == '!' || c == '?'

/-- Python `str.strip()` on a character list. -/
def stripList (l : List Char) : List Char :=
  ((l.dropWhile isPySpace).reverse.dropWhile isPySpace).reverse

/-- Python `str.strip()`. -/
def stripStr (s : String) : String :=
  String.mk (stripList s.data)

/-- Python `str.split(sep)` for a one-character separator (keeps empty
pieces, like Python). -/
def splitCharAux (sep : Char) : List Char → List Char → List (List Char)
  | [], acc => [acc.reverse]
  | c :: cs, acc =>
    if c == sep then acc.reverse :: splitCharAux sep cs []
    else splitCharAux sep cs (c :: acc)

def splitChar (sep : Char) (l : List Char) : List (List Char) :=
  splitCharAux sep l []

/-- `"\n".join(lines)`. -/
def joinNl : List (List Char) → List Char
  | [] => []
  | [l] => l
  | l :: ls => l ++ '\n' :: joinNl ls

/-! ## A small fuelled regex engine for the `re.sub` calls of the source

Only the features actually used by `hashing.py` are represented.  All
literals match case-insensitively (every pattern of the source that
contains letters is compiled with `re.IGNORECASE`; the remaining literals
are caseless characters). -/

inductive Re where
  /-- case-insensitive literal -/
  | lit (s : String)
  /-- one character of a class -/
  | cls (p : Char → Bool)
  | seq (a b : Re)
  /-- `a|b`, `a` preferred (Python tries alternatives left to right) -/
  | alt (a b : Re)
  /-- greedy `a?` -/
  | opt (a : Re)
  /-- greedy `a{lo,hi}` (`hi = none` means unbounded; covers `+`, `*`) -/
  | rep (a : Re) (lo : Nat) (hi : Option Nat)
  /-- `\b` -/
  | wordB

/-- `Re.cat [r1, …, rn]` is the concatenation `r1 r2 … rn`. -/
def Re.cat : List Re → Re
  | [] => .lit ""
  | [r] => r
  | r :: rs => .seq r (Re.cat rs)

/-- Matcher state: the most recently consumed character (for `\b`) and the
rest of the input. -/
abbrev MatchSt := Option Char × List Char

/-- Match a case-insensitive literal against the head of the input. -/
def litMatch : List Char → MatchSt → Option MatchSt
  | [], st => some st
  | c :: cs, (_, d :: ds) =>
    if c.toLower == d.toLower then litMatch cs (some d, ds) else none
  | _ :: _, (_, []) => none

mutual

/-- All ways of matching `r` starting at `st`, in Python's backtracking
priority order (head = the match Python commits to). -/
def reMatch : Nat → Re → MatchSt → List MatchSt
  | 0, _, _ => []
  | _ + 1, .lit s, st =>
    match litMatch s.data st with
    | some st2 => [st2]
    | none => []
  | _ + 1, .cls p, (_, []) => []
  | _ + 1, .cls p, (_, c :: cs) => if p c then [(some c, cs)] else []
  | f + 1, .seq a b, st => (reMatch f a st).flatMap (fun st2 => reMatch f b st2)
  | f + 1, .alt a b, st => reMatch f a st ++ reMatch f b st
  | f + 1, .opt a, st => reMatch f a st ++ [st]
  | f + 1, .rep a lo hi, st => repMatch f a lo hi st
  | _ + 1, .wordB, (prev, rest) =>
    let lw := match prev with | some c => isWordChar c | none => false
    let rw := match rest with | c :: _ => isWordChar c | [] => false
    if lw != rw then [(prev, rest)] else []

/-- Greedy bounded repetition: prefer consuming another copy of `a`. -/
def repMatch : Nat → Re → Nat → Option Nat → MatchSt → List MatchSt
  | 0, _, _, _, _ => []
  | f + 1, a, 0, hi, st =>
    if hi = some 0 then [st]
    else
      ((reMatch f a st).flatMap fun st2 =>
        if st2.2.length < st.2.length then
          repMatch f a 0 (hi.map (· - 1)) st2
        else []) ++ [st]
  | f + 1, a, lo + 1, hi, st =>
    (reMatch f a st).flatMap fun st2 => repMatch f a lo (hi.map (· - 1)) st2

end

/-- One pass of `re.sub(r, repl, s)`: scan left to right over the original
input, replace each leftmost non-overlapping match, leave everything else
unchanged.  (Replacement text is never rescanned, as in Python.) -/
def reSubAux (r : Re) (repl : List Char) : Nat → Option Char → List Char → List Char
  | 0, _, l => l
  | _ + 1, _, [] => []
  | f + 1, prev, c :: cs =>
    match (reMatch ((c :: cs).length * 24 + 600) r (prev, c :: cs)).head? with
    | some (lastC, rest) =>
      if rest.length < (c :: cs).length then
        repl ++ reSubAux r repl f lastC rest
      else
        c :: reSubAux r repl f (some c) cs
    | none => c :: reSubAux r repl f (some c) cs

def reSub (r : Re) (repl : String) (s : String) : String :=
  String.mk (reSubAux r repl.data (s.data.length + 1) none s.data)

/-! ## `ContentHasher._normalize_for_structural_hash` -/

/-- `re.sub(r'\s+', ' ', content)`. -/
def wsPlusRe : Re := .rep (.cls isPySpace) 1 none

/-- `re.sub(r'\n\s*\n', '\n\n', content)`. -/
def nlnlRe : Re := Re.cat [.lit "\n", .rep (.cls isPySpace) 0 none, .lit "\n"]

/-- One line of `[line.rstrip() for line in content.split('\n')]`:
Python `str.rstrip()`. -/
def rstripLine (l : List Char) : List Char :=
  (l.reverse.dropWhile isPySpace).reverse

/-- `re.sub(r' +([,.;:!?])', r'\1', content)`: a run of spaces followed by a
punctuation character collapses to the punctuation character. -/
def spacePunctAux : Nat → List Char → List Char
  | 0, l => l
  | _ + 1, [] => []
  | f + 1, c :: cs =>
    if c == ' ' then
      let sp := cs.takeWhile (fun d => d == ' ')
      let rest := cs.drop sp.length
      match rest with
      | p :: rs =>
        if isPunctC p then p :: spacePunctAux f rs
        else c :: (sp ++ spacePunctAux f rest)
      | [] => c :: sp
    else c :: spacePunctAux f cs

/-- `re.sub(r'([,.;:!?])([A-Za-z])', r'\1 \2', content)`: a space is inserted
between a punctuation character and an immediately following letter (the
letter is consumed by the match, as in Python). -/
def punctLetterAux : Nat → List Char → List Char
  | 0, l => l
  | _ + 1, [] => []
  | f + 1, c :: cs =>
    if isPunctC c then
      match cs with
      | d :: ds =>
        if isAsciiLetter d then c :: ' ' :: d :: punctLetterAux f ds
        else c :: punctLetterAux f cs
      | [] => [c]
    else c :: punctLetterAux f cs

/-- `ContentHasher._normalize_for_structural_hash`. -/
def structuralNormalize (content : String) : String :=
  let c1 := reSub wsPlusRe " " content
  let c2 := reSub nlnlRe "\n\n" c1
  let c3 := String.mk (joinNl ((splitChar '\n' c2.data).map rstripLine))
  let c4 := String.mk (spacePunctAux c3.data.length c3.data)
  let c5 := String.mk (punctLetterAux c4.data.length c4.data)
  stripStr c5

/-! ## `ContentHasher._normalize_for_fingerprint_hash` -/

def digitC : Re := .cls Char.isDigit
/-- `\d{1,2}` -/
def d12 : Re := .rep digitC 1 (some 2)
/-- `\d{4}` -/
def d4 : Re := .rep digitC 4 (some 4)
/-- `\d{2,4}` -/
def d24 : Re := .rep digitC 2 (some 4)
/-- `\d+` -/
def dPlus : Re := .rep digitC 1 none
/-- `[\/\-\.]` -/
def dateSep : Re := .cls (fun c => c == '/' || c == '-' || c == '.')
/-- `\s*` -/
def wsStar : Re := .rep (.cls isPySpace) 0 none

/-- `(?:january|february|…|december)` -/
def monthsFull : Re :=
  ["january", "february", "march", "april", "may", "june", "july",
   "august", "september", "october", "november", "december"].foldr
    (fun m acc => Re.alt (.lit m) acc) (.lit "january")

/-- `(?:jan|feb|…|dec)` -/
def monthsAbbr : Re :=
  ["jan", "feb", "mar", "apr", "may", "jun", "jul", "aug", "sep", "oct",
   "nov", "dec"].foldr (fun m acc => Re.alt (.lit m) acc) (.lit "jan")

/-- `\b(?:updated|modified|revised)\s*:?\s*(?:on\s+)?` — the shared head of
date patterns 1–4. -/
def updatedHead : Re :=
  Re.cat [.wordB,
          .alt (.lit "updated") (.alt (.lit "modified") (.lit "revised")),
          wsStar, .opt (.lit ":"), wsStar,
          .opt (.seq (.lit "on") wsPlusRe)]

/-- `\s+\d{1,2},?\s+\d{4}` — the shared tail of the month-name date
patterns. -/
def monthDayYearTail : Re :=
  Re.cat [wsPlusRe, d12, .opt (.lit ","), wsPlusRe, d4]

/-- The `date_patterns` list of `_normalize_for_fingerprint_hash`, in source
order. -/
def datePatterns : List Re :=
  [ Re.cat [updatedHead, monthsFull, monthDayYearTail],
    Re.cat [updatedHead, monthsAbbr, .opt (.lit "."), monthDayYearTail],
    Re.cat [updatedHead, d12, dateSep, d12, dateSep, d24],
    Re.cat [updatedHead, d4, dateSep, d12, dateSep, d12],
    Re.cat [.wordB, monthsFull, monthDayYearTail],
    Re.cat [.wordB, d12, dateSep, d12, dateSep, d24, .wordB],
    Re.cat [.wordB, d4, dateSep, d12, dateSep, d12, .wordB] ]

/-- `re.sub(r'\bversion\s+\d+(?:\.\d+)*', '', …)` -/
def versionWordRe : Re :=
  Re.cat [.wordB, .lit "version", wsPlusRe, dPlus,
          .rep (.seq (.lit ".") dPlus) 0 none]

/-- `re.sub(r'\bv\d+(?:\.\d+)*', '', …)` -/
def vNumRe : Re :=
  Re.cat [.wordB, .lit "v", dPlus, .rep (.seq (.lit ".") dPlus) 0 none]

/-- `re.sub(r'copyright\s+©?\s*\d{4}(?:-\d{4})?', 'copyright', …)` -/
def copyrightRe : Re :=
  Re.cat [.lit "copyright", wsPlusRe, .opt (.lit "©"), wsStar, d4,
          .opt (.seq (.lit "-") d4)]

/-- `re.sub(r'\n\s*\n+', '\n\n', …)` (the final re-collapse step). -/
def nlnlPlusRe : Re :=
  Re.cat [.lit "\n", wsStar, .rep (.lit "\n") 1 none]

/-- `ContentHasher._normalize_for_fingerprint_hash`: structural
normalization, then date/version/copyright stripping, then whitespace
re-collapse and strip. -/
def fingerprintNormalize (content : String) : String :=
  let c0 := structuralNormalize content
  let c1 := datePatterns.foldl (fun c r => reSub r "" c) c0
  let c2 := reSub versionWordRe "" c1
  let c3 := reSub vNumRe "" c2
  let c4 := reSub copyrightRe "copyright" c3
  let c5 := reSub wsPlusRe " " c4
  let c6 := reSub nlnlPlusRe "\n\n" c5
  stripStr c6

/-! ## `ContentHasher` hashing and comparison -/

/-- Abstraction of a SHA-256 hex digest: injective, deterministic and never
empty — the only facts about `hashlib.sha256(…).hexdigest()` this
development uses. -/
def hashHex (s : String) : String := "sha256:" ++ s

/-- `ContentHasher.generate_hash`.  The unknown-type `ValueError` is caught
by the surrounding `except`, which returns `""`. -/
def generate_hash (content : String) (hashType : String) : String :=
  if content = "" then ""
  else if hashType = "content" then hashHex (stripStr content)
  else if hashType = "structural" then hashHex (structuralNormalize content)
  else if hashType = "fingerprint" then hashHex (fingerprintNormalize content)
  else ""

/-- The `hashes` dictionary: each key may be absent (`none`). -/
structure Hashes where
  content : Option String := none
  structural : Option String := none
  fingerprint : Option String := none
deriving DecidableEq, Repr

/-- `ContentHasher.generate_all_hashes`: all three keys are present. -/
def generate_all_hashes (content : String) : Hashes :=
  { content := some (generate_hash content "content")
    structural := some (generate_hash content "structural")
    fingerprint := some (generate_hash content "fingerprint") }

/-- `ContentHasher.has_content_changed`: an empty hash on either side means
"assume changed". -/
def has_content_changed (oldHash newHash : String) : Bool :=
  if oldHash = "" ∨ newHash = "" then true else oldHash != newHash

/-- The per-key result of `ContentHasher.compare_hashes`; `none` when the
key is present in neither dictionary (Python's loop then never visits
it). -/
structure HashChanges where
  content : Option Bool
  structural : Option Bool
  fingerprint : Option Bool
deriving DecidableEq, Repr

/-- One key of `compare_hashes`: visited iff the key is present on some
side, with `dict.get(k, "")` supplying `""` for the missing side. -/
def cmpField (o n : Option String) : Option Bool :=
  if o.isSome ∨ n.isSome then some (has_content_changed (o.getD "") (n.getD ""))
  else none

/-- `ContentHasher.compare_hashes`. -/
def compare_hashes (old new : Hashes) : HashChanges :=
  { content := cmpField old.content new.content
    structural := cmpField old.structural new.structural
    fingerprint := cmpField old.fingerprint new.fingerprint }

/-- `ContentHasher.should_create_snapshot` = `changes.get("structural", True)`. -/
def should_create_snapshot (old new : Hashes) : Bool :=
  (compare_hashes old new).structural.getD true

/-- `ContentHasher.should_generate_diff` = `changes.get("fingerprint", True)`. -/
def should_generate_diff (old new : Hashes) : Bool :=
  (compare_hashes old new).fingerprint.getD true

/-! ## Claim C7: the empty-hash sentinel -/

/-- **C7.** `generate_all_hashes("")` returns the empty string for all three
hash types, and `has_content_changed` / `compare_hashes` report
`changed = true` whenever either side's hash is empty or missing —
including when both sides are the empty sentinel. -/
theorem empty_hash_sentinel_fails_open :
    generate_all_hashes "" = ⟨some "", some "", some ""⟩ ∧
    (∀ o n : String, o = "" ∨ n = "" → has_content_changed o n = true) ∧
    (∀ old new : Hashes,
      (old.content.getD "" = "" ∨ new.content.getD "" = "" →
        (compare_hashes old new).content.getD true = true) ∧
      (old.structural.getD "" = "" ∨ new.structural.getD "" = "" →
        (compare_hashes old new).structural.getD true = true) ∧
      (old.fingerprint.getD "" = "" ∨ new.fingerprint.getD "" = "" →
        (compare_hashes old new).fingerprint.getD true = true)) := by
  refine ⟨rfl, ?_, ?_⟩
  · intro o n h
    simp [has_content_changed, h]
  · intro old new
    have key : ∀ o n : Option String, o.getD "" = "" ∨ n.getD "" = "" →
        (cmpField o n).getD true = true := by
      intro o n h
      unfold cmpField
      by_cases hs : o.isSome ∨ n.isSome
      · simp [hs, has_content_changed, h]
      · simp [hs]
    exact ⟨key _ _, key _ _, key _ _⟩

theorem empty_hash_sentinel_fails_open_witness :
    has_content_changed "" "" = true ∧
    (compare_hashes ⟨some "", none, some "x"⟩ ⟨some "h", none, none⟩).content.getD true
      = true :=
  ⟨empty_hash_sentinel_fails_open.2.1 "" "" (Or.inl rfl),
   ((empty_hash_sentinel_fails_open.2.2 ⟨some "", none, some "x"⟩
      ⟨some "h", none, none⟩).1 (Or.inl rfl))⟩

/-! ## Claim C10: fingerprint normalization factors through structural
normalization — refuted at empty input, holds for non-empty inputs -/

/-- **C10, counterexample.** The claim "for all texts `a` and `b`, if
`_normalize_for_structural_hash(a) = _normalize_for_structural_hash(b)` then
`generate_hash(a, "fingerprint") = generate_hash(b, "fingerprint")`" fails at
`a = ""`, `b = " "`: both normalize structurally to `""`, but
`generate_hash` short-circuits empty *input* (not empty normal form) to the
`""` sentinel, so the fingerprint of `""` is `""` while the fingerprint of
`" "` is the digest of the empty string. -/
theorem fingerprint_factoring_fails_on_empty :
    structuralNormalize "" = structuralNormalize " " ∧
    generate_hash "" "fingerprint" ≠ generate_hash " " "fingerprint" := by
  constructor
  · decide
  · decide

/-- **C10, amended.** For all *non-empty* texts `a` and `b`, if the
structural normal forms agree then the fingerprint hashes agree; hence a
structurally-unchanged pair of non-empty snapshots is also
fingerprint-unchanged, and the fingerprint gate can only skip, never add,
AI calls relative to the structural signal. -/
theorem fingerprint_factors_through_structural (a b : String)
    (ha : a ≠ "") (hb : b ≠ "")
    (h : structuralNormalize a = structuralNormalize b) :
    generate_hash a "fingerprint" = generate_hash b "fingerprint" := by
  have hfp : fingerprintNormalize a = fingerprintNormalize b := by
    unfold fingerprintNormalize
    rw [h]
  have hc : ¬ ("fingerprint" = "content") := by decide
  have hs : ¬ ("fingerprint" = "structural") := by decide
  simp only [generate_hash, if_neg ha, if_neg hb, if_neg hc, if_neg hs, hfp]

theorem fingerprint_factors_through_structural_witness :
    "x " ≠ "" ∧ "x" ≠ "" ∧ structuralNormalize "x " = structuralNormalize "x" ∧
    generate_hash "x " "fingerprint" = generate_hash "x" "fingerprint" :=
  ⟨by decide, by decide, by decide,
   fingerprint_factors_through_structural "x " "x" (by decide) (by decide)
     (by decide)⟩

/-! ## The blob store (`LocalStorage` as a key/value map) -/

/-- The fields of a stored snapshot-metadata JSON object that the embedded
operations consult (`metadata.get("hashes", {})` and the per-hash keys). -/
structure Metadata where
  hashes : Hashes := {}
deriving DecidableEq, Repr

/-- The fields of a stored diff-metadata JSON object that the embedded
operations consult. -/
structure DiffMeta where
  document_id : String := ""
  document_name : String := ""
  previous_snapshot_timestamp : Option String := none
  current_snapshot_timestamp : Option String := none
  llm_model : String := ""
  prompt_template_used : String := ""
  generated_at : String := ""
  url : String := ""
deriving DecidableEq, Repr

/-- A stored file: plain text, or a serialized metadata object
(`json.dumps` / `json.loads` modelled as identity on the structured
constructors). -/
inductive Blob where
  | text (s : String)
  | meta (m : Metadata)
  | diffMeta (m : DiffMeta)
deriving DecidableEq, Repr

/-- The raw file text of a blob.  Serialized objects are abstracted by a
fixed non-empty placeholder: the source only ever tests such text for
truthiness (`json.dumps` of a dict is never empty). -/
def Blob.raw : Blob → String
  | .text s => s
  | .meta _ => "serialized-json"
  | .diffMeta _ => "serialized-json"

/-- `json.loads` expecting a snapshot-metadata object; `none` is the
`JSONDecodeError` path. -/
def Blob.asMeta : Blob → Option Metadata
  | .meta m => some m
  | _ => none

/-- `json.loads` expecting a diff-metadata object; `none` is the
`JSONDecodeError` path. -/
def Blob.asDiffMeta : Blob → Option DiffMeta
  | .diffMeta m => some m
  | _ => none

/-- Python truthiness of an optional string (`None` and `""` are falsy). -/
def strTruthy : Option String → Bool
  | some s => s != ""
  | none => false

/-- The local blob store: relative path ↦ file.  `upload_file` overwrites,
`download_file` returns `none` for a missing path, `delete_file` removes. -/
abbrev Store := List (String × Blob)

/-- `download_file`: the file stored at `p`, if any. -/
def Store.get : Store → String → Option Blob
  | [], _ => none
  | kv :: tl, p => if kv.1 = p then some kv.2 else Store.get tl p

/-- `upload_file` (overwrite semantics of writing a file). -/
def Store.put (s : Store) (p : String) (v : Blob) : Store :=
  (p, v) :: s.filter (fun kv => !(kv.1 == p))

/-- `delete_file` (deleting a missing file leaves the store unchanged). -/
def Store.del (s : Store) (p : String) : Store :=
  s.filter (fun kv => !(kv.1 == p))

theorem Store.get_filter_out (s : Store) (p q : String) (h : q ≠ p) :
    Store.get (s.filter (fun kv => !(kv.1 == p))) q = s.get q := by
  induction s with
  | nil => rfl
  | cons kv tl ih =>
    by_cases hp : kv.1 = p
    · have hq : p ≠ q := fun hc => h hc.symm
      have hkq : kv.1 ≠ q := by rw [hp]; exact hq
      simp [List.filter_cons, hp, Store.get, hkq, hq, ih]
    · simp only [List.filter_cons, show (!(kv.1 == p)) = true by simp [hp],
        if_pos trivial]
      by_cases hq : kv.1 = q
      · simp [Store.get, hq]
      · simp [Store.get, hq, ih]

@[simp] theorem Store.get_put (s : Store) (p q : String) (v : Blob) :
    (s.put p v).get q = if q = p then some v else s.get q := by
  by_cases h : q = p
  · simp [Store.put, Store.get, h]
  · have hq : p ≠ q := fun hc => h hc.symm
    simp [Store.put, Store.get, hq, h, Store.get_filter_out s p q h]

@[simp] theorem Store.get_del (s : Store) (p q : String) :
    (s.del p).get q = if q = p then none else s.get q := by
  by_cases h : q = p
  · subst h
    simp only [if_pos trivial]
    induction s with
    | nil => rfl
    | cons kv tl ih =>
      by_cases hq : kv.1 = q
      · simp [Store.del, List.filter_cons, hq] at ih ⊢
        exact ih
      · simp [Store.del, List.filter_cons, hq, Store.get] at ih ⊢
        exact ih
  · simp [Store.del, h, Store.get_filter_out s p q h]

/-! ### Path algebra -/

theorem strAppendData (a b : String) : (a ++ b).data = a.data ++ b.data := by
  cases a
  cases b
  rfl

theorem strCancelLeft {a x y : String} (h : a ++ x = a ++ y) : x = y := by
  cases a with | mk la =>
  cases x with | mk lx =>
  cases y with | mk ly =>
  have hd : la ++ lx = la ++ ly := by
    have := congrArg String.data h
    simpa [strAppendData] using this
  exact congrArg String.mk (List.append_cancel_left hd)

theorem strCancelRight {x y b : String} (h : x ++ b = y ++ b) : x = y := by
  cases x with | mk lx =>
  cases y with | mk ly =>
  cases b with | mk lb =>
  have hd : lx ++ lb = ly ++ lb := by
    have := congrArg String.data h
    simpa [strAppendData] using this
  exact congrArg String.mk (List.append_cancel_right hd)

/-- If `b` is not a suffix of `m`, then no `x ++ b` equals `m`. -/
theorem appendNeOfNotSuffix (x b m : String) (h : ¬ b.data <:+ m.data) :
    x ++ b ≠ m := by
  intro he
  apply h
  rw [← he, strAppendData]
  exact List.suffix_append x.data b.data

/-- The path `tos/{doc_id}/{name}` of the ToS pointer scheme. -/
def tosPath (d name : String) : String := "tos/" ++ d ++ ("/" ++ name)

theorem tosPath_inj {d x y : String} (h : tosPath d x = tosPath d y) :
    x = y := by
  unfold tosPath at h
  exact strCancelLeft (strCancelLeft h)

theorem tosPath_ne {d x y : String} (h : x ≠ y) : tosPath d x ≠ tosPath d y :=
  fun he => h (tosPath_inj he)

/-- The path `snapshots/{doc_id}/{name}` of the legacy snapshot scheme. -/
def snapPath (d name : String) : String := "snapshots/" ++ d ++ ("/" ++ name)

theorem snapPath_inj {d x y : String} (h : snapPath d x = snapPath d y) :
    x = y := by
  unfold snapPath at h
  exact strCancelLeft (strCancelLeft h)

theorem txtKeyNe {x y : String} (h : x ≠ y) : x ++ ".txt" ≠ y ++ ".txt" :=
  fun he => h (strCancelRight he)

theorem jsonKeyNe {x y : String} (h : x ≠ y) : x ++ ".json" ≠ y ++ ".json" :=
  fun he => h (strCancelRight he)

/-- A `{x}.txt` key never coincides with a `{y}.json` key. -/
theorem txtNeJson (x y : String) : x ++ ".txt" ≠ y ++ ".json" := by
  intro he
  have hd : x.data ++ ".txt".data = y.data ++ ".json".data := by
    have h := congrArg String.data he
    rw [strAppendData, strAppendData] at h
    exact h
  have hrev := congrArg (fun l => l.reverse.head?) hd
  simp only [List.reverse_append] at hrev
  rw [show (".txt".data.reverse : List Char) = 't' :: "xt.".data by decide,
      show (".json".data.reverse : List Char) = 'n' :: "osj.".data by decide]
    at hrev
  simp only [List.cons_append, List.head?] at hrev
  exact absurd (Option.some.inj hrev) (by decide)

/-! ## `LocalStorage.store_tos_document` (the Version Store ingest) -/

/-- The dictionary returned by `store_tos_document`. -/
structure TosResult where
  changes_detected : Bool
  snapshot_created : Bool
  timestamp : Option String
deriving DecidableEq, Repr

/-- The two unconditional `current.*` writes at the top of
`store_tos_document` ("Always store as current first"). -/
def tosAfterCurrent (s : Store) (d content : String) (metadata : Metadata) :
    Store :=
  (s.put (tosPath d "current.txt") (.text content)).put
    (tosPath d "current.json") (.meta metadata)

/-- The change-detection block of `store_tos_document`: resolve the `last`
pointer, load the pointed-to snapshot, and compare structural hashes.
Every failure along the way (missing pointer, empty pointer text, missing
or empty snapshot files, JSON decode error) leaves `changes_detected` at
its initial `True`. -/
def tosChangesDetected (s : Store) (d : String) (metadata : Metadata) : Bool :=
  match s.get (tosPath d "last.txt") with
  | none => true
  | some b =>
    if b.raw = "" then true
    else
      let lastDate := stripStr b.raw
      match s.get (tosPath d (lastDate ++ ".txt")),
            s.get (tosPath d (lastDate ++ ".json")) with
      | some cb, some mb =>
        if cb.raw = "" ∨ mb.raw = "" then true
        else
          match mb.asMeta with
          | some lm =>
            if lm.hashes.structural = metadata.hashes.structural then false
            else true
          | none => true
      | _, _ => true

/-- `LocalStorage.store_tos_document`: always overwrite `current.*`; detect
changes against the snapshot designated by `last`; on change, demote `last`
to `prev` (when the pointer text is truthy), point `last` at today's date,
write the dated snapshot and the changed marker; otherwise delete the
changed marker. -/
def store_tos_document (s : Store) (d today content : String)
    (metadata : Metadata) : Store × TosResult :=
  let s2 := tosAfterCurrent s d content metadata
  let changes := tosChangesDetected s2 d metadata
  if changes then
    let s3 :=
      match s2.get (tosPath d "last.txt") with
      | some b =>
        if b.raw = "" then s2
        else s2.put (tosPath d "prev.txt") (.text (stripStr b.raw))
      | none => s2
    let s4 := s3.put (tosPath d "last.txt") (.text today)
    let s5 := (s4.put (tosPath d (today ++ ".txt")) (.text content)).put
      (tosPath d (today ++ ".json")) (.meta metadata)
    let s6 := s5.put (tosPath d "changed") (.text today)
    (s6, ⟨true, true, some today⟩)
  else
    (s2.del (tosPath d "changed"), ⟨false, false, none⟩)

/-! ### Unfolding lemmas for the three ingest shapes -/

/-- A changing ingest whose `last` pointer is absent performs no `prev`
write. -/
theorem store_tos_eq_of_no_last (s : Store) (d today content : String)
    (metadata : Metadata)
    (hlast : (tosAfterCurrent s d content metadata).get (tosPath d "last.txt")
      = none) :
    store_tos_document s d today content metadata =
      (((((tosAfterCurrent s d content metadata).put
            (tosPath d "last.txt") (.text today)).put
            (tosPath d (today ++ ".txt")) (.text content)).put
            (tosPath d (today ++ ".json")) (.meta metadata)).put
            (tosPath d "changed") (.text today),
       ⟨true, true, some today⟩) := by
  have hch : tosChangesDetected (tosAfterCurrent s d content metadata) d
      metadata = true := by
    unfold tosChangesDetected
    rw [hlast]
  simp only [store_tos_document]
  rw [hch, hlast]
  rfl

/-- A changing ingest whose `last` pointer holds the (truthy) text `D`
demotes `stripStr D` into `prev` before rolling the pointers. -/
theorem store_tos_eq_of_last (s : Store) (d today content : String)
    (metadata : Metadata) (D : String)
    (hlast : (tosAfterCurrent s d content metadata).get (tosPath d "last.txt")
      = some (.text D))
    (hD : D ≠ "")
    (hch : tosChangesDetected (tosAfterCurrent s d content metadata) d
      metadata = true) :
    store_tos_document s d today content metadata =
      ((((((tosAfterCurrent s d content metadata).put
            (tosPath d "prev.txt") (.text (stripStr D))).put
            (tosPath d "last.txt") (.text today)).put
            (tosPath d (today ++ ".txt")) (.text content)).put
            (tosPath d (today ++ ".json")) (.meta metadata)).put
            (tosPath d "changed") (.text today),
       ⟨true, true, some today⟩) := by
  simp only [store_tos_document]
  rw [hch, hlast]
  simp [Blob.raw, hD]

/-- An unchanged ingest overwrites `current.*` and deletes the changed
marker only. -/
theorem store_tos_eq_of_unchanged (s : Store) (d today content : String)
    (metadata : Metadata)
    (hch : tosChangesDetected (tosAfterCurrent s d content metadata) d
      metadata = false) :
    store_tos_document s d today content metadata =
      ((tosAfterCurrent s d content metadata).del (tosPath d "changed"),
       ⟨false, false, none⟩) := by
  simp only [store_tos_document]
  rw [hch]
  simp

/-! ## Claim C2: the first-ingest invariant -/

/-- **C2.** For a doc_id with no resolvable `last` pointer (first-ever
ingest: nothing stored under `tos/{doc_id}/`), `store_tos_document` reports
`changes_detected = true` and `snapshot_created = true`, writes exactly one
dated snapshot under the ingest day's date, points `last` at that date, and
does not write a `prev` pointer. -/
theorem first_ingest_establishes_history (s : Store)
    (d today content : String) (metadata : Metadata)
    (hEmpty : ∀ x, s.get (tosPath d x) = none)
    (hcur : today ≠ "current") (hlst : today ≠ "last") (hprv : today ≠ "prev") :
    (store_tos_document s d today content metadata).2 =
      ⟨true, true, some today⟩ ∧
    (store_tos_document s d today content metadata).1.get
      (tosPath d "last.txt") = some (.text today) ∧
    (store_tos_document s d today content metadata).1.get
      (tosPath d "prev.txt") = none ∧
    (store_tos_document s d today content metadata).1.get
      (tosPath d (today ++ ".txt")) = some (.text content) ∧
    (store_tos_document s d today content metadata).1.get
      (tosPath d (today ++ ".json")) = some (.meta metadata) ∧
    ∀ x, x ≠ today → x ≠ "current" → x ≠ "last" →
      (store_tos_document s d today content metadata).1.get
        (tosPath d (x ++ ".txt")) = none := by
  have hlast : (tosAfterCurrent s d content metadata).get (tosPath d "last.txt")
      = none := by
    unfold tosAfterCurrent
    rw [Store.get_put, if_neg (tosPath_ne (by decide)), Store.get_put,
      if_neg (tosPath_ne (by decide)), hEmpty]
  rw [store_tos_eq_of_no_last s d today content metadata hlast]
  have eLt : ("last.txt" : String) = "last" ++ ".txt" := by decide
  have ePt : ("prev.txt" : String) = "prev" ++ ".txt" := by decide
  have eCt : ("current.txt" : String) = "current" ++ ".txt" := by decide
  have eCj : ("current.json" : String) = "current" ++ ".json" := by decide
  refine ⟨rfl, ?_, ?_, ?_, ?_, ?_⟩
  · rw [Store.get_put, if_neg (tosPath_ne (by decide)),
      Store.get_put, if_neg (tosPath_ne (by rw [eLt]; exact txtNeJson "last" today)),
      Store.get_put, if_neg (tosPath_ne (by rw [eLt]; exact txtKeyNe (fun he => hlst he.symm))),
      Store.get_put, if_pos rfl]
  · rw [Store.get_put, if_neg (tosPath_ne (by decide)),
      Store.get_put, if_neg (tosPath_ne (by rw [ePt]; exact txtNeJson "prev" today)),
      Store.get_put, if_neg (tosPath_ne (by rw [ePt]; exact txtKeyNe (fun he => hprv he.symm))),
      Store.get_put, if_neg (tosPath_ne (by decide))]
    unfold tosAfterCurrent
    rw [Store.get_put, if_neg (tosPath_ne (by decide)),
      Store.get_put, if_neg (tosPath_ne (by decide)), hEmpty]
  · rw [Store.get_put, if_neg (tosPath_ne (appendNeOfNotSuffix today ".txt" "changed" (by decide))),
      Store.get_put, if_neg (tosPath_ne (fun he => absurd (strCancelLeft he) (by decide))),
      Store.get_put, if_pos rfl]
  · rw [Store.get_put, if_neg (tosPath_ne (appendNeOfNotSuffix today ".json" "changed" (by decide))),
      Store.get_put, if_pos rfl]
  · intro x hx hxc hxl
    rw [Store.get_put, if_neg (tosPath_ne (appendNeOfNotSuffix x ".txt" "changed" (by decide))),
      Store.get_put, if_neg (tosPath_ne (txtNeJson x today)),
      Store.get_put, if_neg (tosPath_ne (txtKeyNe hx)),
      Store.get_put, if_neg (tosPath_ne (by rw [eLt]; exact txtKeyNe hxl))]
    unfold tosAfterCurrent
    rw [Store.get_put, if_neg (tosPath_ne (by rw [eCj]; exact txtNeJson x "current")),
      Store.get_put, if_neg (tosPath_ne (by rw [eCt]; exact txtKeyNe hxc)), hEmpty]

theorem first_ingest_establishes_history_witness :
    (store_tos_document [] "d1" "2024-01-01" "Terms v1."
      ⟨⟨some "c1", some "s1", some "f1"⟩⟩).2 = ⟨true, true, some "2024-01-01"⟩ ∧
    (store_tos_document [] "d1" "2024-01-01" "Terms v1."
      ⟨⟨some "c1", some "s1", some "f1"⟩⟩).1.get (tosPath "d1" "prev.txt")
      = none ∧
    (store_tos_document [] "d1" "2024-01-01" "Terms v1."
      ⟨⟨some "c1", some "s1", some "f1"⟩⟩).1.get (tosPath "d1" "last.txt")
      = some (.text "2024-01-01") :=
  have h := first_ingest_establishes_history [] "d1" "2024-01-01" "Terms v1."
    ⟨⟨some "c1", some "s1", some "f1"⟩⟩ (fun _ => rfl)
    (by decide) (by decide) (by decide)
  ⟨h.1, h.2.2.1, h.2.1⟩

/-! ## Claim C3: idempotence of an unchanged re-ingest -/

/-- **C3.** When the `last` pointer resolves to a loadable snapshot whose
structural hash equals the incoming metadata's structural hash,
`store_tos_document` overwrites only the `current` blobs and deletes the
changed marker: every other path — `last`, `prev`, and every dated
snapshot — is left unchanged, and the result is
`changes_detected = false`, `snapshot_created = false`, `timestamp = none`. -/
theorem unchanged_reingest_touches_only_current (s : Store)
    (d today content : String) (metadata : Metadata)
    (D lc : String) (lm : Metadata)
    (hlast : s.get (tosPath d "last.txt") = some (.text D))
    (hD : D ≠ "") (hDs : stripStr D = D) (hDc : D ≠ "current")
    (hct : s.get (tosPath d (D ++ ".txt")) = some (.text lc)) (hlc : lc ≠ "")
    (hmj : s.get (tosPath d (D ++ ".json")) = some (.meta lm))
    (hsh : lm.hashes.structural = metadata.hashes.structural) :
    (store_tos_document s d today content metadata).2 = ⟨false, false, none⟩ ∧
    (store_tos_document s d today content metadata).1.get
      (tosPath d "current.txt") = some (.text content) ∧
    (store_tos_document s d today content metadata).1.get
      (tosPath d "current.json") = some (.meta metadata) ∧
    (store_tos_document s d today content metadata).1.get
      (tosPath d "changed") = none ∧
    ∀ p, p ≠ tosPath d "current.txt" → p ≠ tosPath d "current.json" →
      p ≠ tosPath d "changed" →
      (store_tos_document s d today content metadata).1.get p = s.get p := by
  have eCt : ("current.txt" : String) = "current" ++ ".txt" := by decide
  have eCj : ("current.json" : String) = "current" ++ ".json" := by decide
  have hch : tosChangesDetected (tosAfterCurrent s d content metadata) d
      metadata = false := by
    unfold tosChangesDetected tosAfterCurrent
    rw [Store.get_put, if_neg (tosPath_ne (by decide)), Store.get_put,
      if_neg (tosPath_ne (by decide)), hlast]
    simp only [Blob.raw, if_neg hD, hDs]
    rw [Store.get_put,
      if_neg (tosPath_ne (by rw [eCj]; exact txtNeJson D "current")),
      Store.get_put, if_neg (tosPath_ne (by rw [eCt]; exact txtKeyNe hDc)),
      hct, Store.get_put, if_neg (tosPath_ne (by rw [eCj]; exact jsonKeyNe hDc)),
      Store.get_put,
      if_neg (tosPath_ne (by rw [eCt]; exact (txtNeJson "current" D).symm)),
      hmj]
    simp only [Blob.raw, Blob.asMeta]
    rw [if_neg (by simp [hlc]), if_pos hsh]
  rw [store_tos_eq_of_unchanged s d today content metadata hch]
  unfold tosAfterCurrent
  refine ⟨rfl, ?_, ?_, ?_, ?_⟩
  · rw [Store.get_del, if_neg (tosPath_ne (by decide)), Store.get_put,
      if_neg (tosPath_ne (by decide)), Store.get_put, if_pos rfl]
  · rw [Store.get_del, if_neg (tosPath_ne (by decide)), Store.get_put,
      if_pos rfl]
  · rw [Store.get_del, if_pos rfl]
  · intro p h1 h2 h3
    rw [Store.get_del, if_neg h3, Store.get_put, if_neg h2, Store.get_put,
      if_neg h1]

/-- The concrete store used by the C3 witness: one prior changing ingest of
`d1` on `2024-01-01`. -/
def storeOneSnapshot : Store :=
  [(tosPath "d1" "last.txt", .text "2024-01-01"),
   (tosPath "d1" "2024-01-01.txt", .text "Terms v1."),
   (tosPath "d1" "2024-01-01.json", .meta ⟨⟨some "c1", some "s1", some "f1"⟩⟩)]

theorem unchanged_reingest_touches_only_current_witness :
    (store_tos_document storeOneSnapshot "d1" "2024-01-02" "Terms v1."
      ⟨⟨some "c2", some "s1", some "f1"⟩⟩).2 = ⟨false, false, none⟩ ∧
    (store_tos_document storeOneSnapshot "d1" "2024-01-02" "Terms v1."
      ⟨⟨some "c2", some "s1", some "f1"⟩⟩).1.get (tosPath "d1" "last.txt")
      = storeOneSnapshot.get (tosPath "d1" "last.txt") :=
  have h := unchanged_reingest_touches_only_current storeOneSnapshot "d1"
    "2024-01-02" "Terms v1." ⟨⟨some "c2", some "s1", some "f1"⟩⟩
    "2024-01-01" "Terms v1." ⟨⟨some "c1", some "s1", some "f1"⟩⟩
    (by decide) (by decide) (by decide) (by decide) (by decide) (by decide)
    (by decide) rfl
  ⟨h.1, h.2.2.2.2 (tosPath "d1" "last.txt") (tosPath_ne (by decide))
    (tosPath_ne (by decide)) (tosPath_ne (by decide))⟩

/-! ## Claim C4: the depth-1 history invariant

An ingest trace is a list of `(date, content, metadata)` triples fed to
`store_tos_document` in order. -/

structure IngestStep where
  date : String
  content : String
  md : Metadata
deriving DecidableEq, Repr

/-- A well-formed ingest: the minted date label is non-empty, is none of
the reserved labels, is whitespace-free (it is a `YYYY-MM-DD` string in
the source), and the content is non-empty. -/
def validStep (i : IngestStep) : Prop :=
  i.date ≠ "" ∧ i.date ≠ "current" ∧ i.date ≠ "last" ∧ i.date ≠ "prev" ∧
  stripStr i.date = i.date ∧ i.content ≠ ""

/-- Run a trace of ingests through `store_tos_document`. -/
def applyIngests (s : Store) (d : String) : List IngestStep → Store
  | [] => s
  | i :: rest =>
    applyIngests (store_tos_document s d i.date i.content i.md).1 d rest

/-- Every ingest of the trace is structurally changing with respect to the
snapshot it will be compared against (the immediately preceding ingest). -/
def chainChanging : Metadata → List IngestStep → Prop
  | _, [] => True
  | prevMd, j :: js =>
    j.md.hashes.structural ≠ prevMd.hashes.structural ∧ chainChanging j.md js

/-- The dates of the second-to-last and last elements of `a :: b :: rest`. -/
def lastTwoDates (a b : IngestStep) : List IngestStep → String × String
  | [] => (a.date, b.date)
  | c :: cs => lastTwoDates b c cs

/-- The last element of `i :: js`. -/
def finalStep (i : IngestStep) : List IngestStep → IngestStep
  | [] => i
  | j :: js => finalStep j js

/-- The `prev` date after running `i :: js` from a state whose `prev` held
`p` and whose `last` held `i`'s predecessor. -/
def finalPrev (i : IngestStep) (p : Option String) : List IngestStep →
    Option String
  | [] => p
  | j :: js => finalPrev j (some i.date) js

/-- The state invariant after a changing ingest `i`: `last` designates
`i.date`, the dated snapshot holds `i`'s content and metadata, and `prev`
holds exactly `p`. -/
def TrackedAt (s : Store) (d : String) (i : IngestStep) (p : Option String) :
    Prop :=
  s.get (tosPath d "last.txt") = some (.text i.date) ∧
  s.get (tosPath d (i.date ++ ".txt")) = some (.text i.content) ∧
  s.get (tosPath d (i.date ++ ".json")) = some (.meta i.md) ∧
  s.get (tosPath d "prev.txt") = p.map (fun t => Blob.text t)

/-- The `if last_date_str:` test of the demotion block: the `last` pointer
file exists and its text is truthy. -/
def lastPtrTruthy (s : Store) (d : String) : Bool :=
  match s.get (tosPath d "last.txt") with
  | some b => b.raw != ""
  | none => false

/-- A changing ingest whose `last` pointer file exists but holds falsy
(empty) text also performs no `prev` write. -/
theorem store_tos_eq_of_blank_last (s : Store) (d today content : String)
    (metadata : Metadata) (b : Blob)
    (hlast : (tosAfterCurrent s d content metadata).get (tosPath d "last.txt")
      = some b)
    (hb : b.raw = "")
    (hch : tosChangesDetected (tosAfterCurrent s d content metadata) d
      metadata = true) :
    store_tos_document s d today content metadata =
      (((((tosAfterCurrent s d content metadata).put
            (tosPath d "last.txt") (.text today)).put
            (tosPath d (today ++ ".txt")) (.text content)).put
            (tosPath d (today ++ ".json")) (.meta metadata)).put
            (tosPath d "changed") (.text today),
       ⟨true, true, some today⟩) := by
  simp only [store_tos_document]
  rw [hch, hlast]
  simp [hb]

/-- A first ingest from a state with nothing under `tos/{d}/` establishes
the tracked invariant with no `prev`. -/
theorem tracked_first (s : Store) (d : String) (i : IngestStep)
    (hEmpty : ∀ x, s.get (tosPath d x) = none) (hvi : validStep i) :
    TrackedAt (store_tos_document s d i.date i.content i.md).1 d i none ∧
    (store_tos_document s d i.date i.content i.md).2 =
      ⟨true, true, some i.date⟩ := by
  obtain ⟨hne, hcur, hlst, hprv, hstrip, hcont⟩ := hvi
  have hlast : (tosAfterCurrent s d i.content i.md).get (tosPath d "last.txt")
      = none := by
    unfold tosAfterCurrent
    rw [Store.get_put, if_neg (tosPath_ne (by decide)), Store.get_put,
      if_neg (tosPath_ne (by decide)), hEmpty]
  rw [store_tos_eq_of_no_last s d i.date i.content i.md hlast]
  have eLt : ("last.txt" : String) = "last" ++ ".txt" := by decide
  have ePt : ("prev.txt" : String) = "prev" ++ ".txt" := by decide
  refine ⟨⟨?_, ?_, ?_, ?_⟩, rfl⟩
  · rw [Store.get_put, if_neg (tosPath_ne (by decide)),
      Store.get_put, if_neg (tosPath_ne (by rw [eLt]; exact txtNeJson "last" i.date)),
      Store.get_put, if_neg (tosPath_ne (by rw [eLt]; exact txtKeyNe (fun he => hlst he.symm))),
      Store.get_put, if_pos rfl]
  · rw [Store.get_put, if_neg (tosPath_ne (appendNeOfNotSuffix i.date ".txt" "changed" (by decide))),
      Store.get_put, if_neg (tosPath_ne (fun he => absurd (strCancelLeft he) (by decide))),
      Store.get_put, if_pos rfl]
  · rw [Store.get_put, if_neg (tosPath_ne (appendNeOfNotSuffix i.date ".json" "changed" (by decide))),
      Store.get_put, if_pos rfl]
  · rw [Store.get_put, if_neg (tosPath_ne (by decide)),
      Store.get_put, if_neg (tosPath_ne (by rw [ePt]; exact txtNeJson "prev" i.date)),
      Store.get_put, if_neg (tosPath_ne (by rw [ePt]; exact txtKeyNe (fun he => hprv he.symm))),
      Store.get_put, if_neg (tosPath_ne (by decide))]
    unfold tosAfterCurrent
    rw [Store.get_put, if_neg (tosPath_ne (by decide)),
      Store.get_put, if_neg (tosPath_ne (by decide)), hEmpty]
    rfl

/-- A structurally changing ingest `j` from a tracked state demotes the old
`last` date into `prev` and re-establishes the tracked invariant at `j`. -/
theorem tracked_step (s : Store) (d : String) (i j : IngestStep)
    (p : Option String)
    (hT : TrackedAt s d i p) (hvi : validStep i) (hvj : validStep j)
    (hch : j.md.hashes.structural ≠ i.md.hashes.structural) :
    TrackedAt (store_tos_document s d j.date j.content j.md).1 d j
      (some i.date) ∧
    (store_tos_document s d j.date j.content j.md).2 =
      ⟨true, true, some j.date⟩ := by
  obtain ⟨hTl, hTt, hTj, hTp⟩ := hT
  obtain ⟨hiNe, hiCur, hiLst, hiPrv, hiStrip, hiCont⟩ := hvi
  obtain ⟨hjNe, hjCur, hjLst, hjPrv, hjStrip, hjCont⟩ := hvj
  have eLt : ("last.txt" : String) = "last" ++ ".txt" := by decide
  have ePt : ("prev.txt" : String) = "prev" ++ ".txt" := by decide
  have eCt : ("current.txt" : String) = "current" ++ ".txt" := by decide
  have eCj : ("current.json" : String) = "current" ++ ".json" := by decide
  have hlast2 : (tosAfterCurrent s d j.content j.md).get (tosPath d "last.txt")
      = some (.text i.date) := by
    unfold tosAfterCurrent
    rw [Store.get_put, if_neg (tosPath_ne (by decide)), Store.get_put,
      if_neg (tosPath_ne (by decide)), hTl]
  have hdet : tosChangesDetected (tosAfterCurrent s d j.content j.md) d j.md
      = true := by
    unfold tosChangesDetected
    rw [hlast2]
    simp only [Blob.raw, if_neg hiNe, hiStrip]
    unfold tosAfterCurrent
    rw [Store.get_put,
      if_neg (tosPath_ne (by rw [eCj]; exact txtNeJson i.date "current")),
      Store.get_put, if_neg (tosPath_ne (by rw [eCt]; exact txtKeyNe hiCur)),
      hTt, Store.get_put,
      if_neg (tosPath_ne (by rw [eCj]; exact jsonKeyNe hiCur)),
      Store.get_put,
      if_neg (tosPath_ne (by rw [eCt]; exact (txtNeJson "current" i.date).symm)),
      hTj]
    simp only [Blob.raw, Blob.asMeta]
    rw [if_neg (by simp [hiCont]), if_neg (fun he => hch he.symm)]
  rw [store_tos_eq_of_last s d j.date j.content j.md i.date hlast2 hiNe hdet]
  rw [hiStrip]
  refine ⟨⟨?_, ?_, ?_, ?_⟩, rfl⟩
  · rw [Store.get_put, if_neg (tosPath_ne (by decide)),
      Store.get_put, if_neg (tosPath_ne (by rw [eLt]; exact txtNeJson "last" j.date)),
      Store.get_put, if_neg (tosPath_ne (by rw [eLt]; exact txtKeyNe (fun he => hjLst he.symm))),
      Store.get_put, if_pos rfl]
  · rw [Store.get_put, if_neg (tosPath_ne (appendNeOfNotSuffix j.date ".txt" "changed" (by decide))),
      Store.get_put, if_neg (tosPath_ne (fun he => absurd (strCancelLeft he) (by decide))),
      Store.get_put, if_pos rfl]
  · rw [Store.get_put, if_neg (tosPath_ne (appendNeOfNotSuffix j.date ".json" "changed" (by decide))),
      Store.get_put, if_pos rfl]
  · rw [Store.get_put, if_neg (tosPath_ne (by decide)),
      Store.get_put, if_neg (tosPath_ne (by rw [ePt]; exact txtNeJson "prev" j.date)),
      Store.get_put, if_neg (tosPath_ne (by rw [ePt]; exact txtKeyNe (fun he => hjPrv he.symm))),
      Store.get_put, if_neg (tosPath_ne (by decide)),
      Store.get_put, if_pos rfl]
    rfl

/-- Folding a chain of changing ingests preserves the tracked invariant,
with the final state determined by `finalStep` / `finalPrev`. -/
theorem tracked_applyIngests (d : String) :
    ∀ (js : List IngestStep) (s : Store) (i : IngestStep) (p : Option String),
      TrackedAt s d i p → validStep i → (∀ j ∈ js, validStep j) →
      chainChanging i.md js →
      TrackedAt (applyIngests s d js) d (finalStep i js) (finalPrev i p js) := by
  intro js
  induction js with
  | nil =>
    intro s i p hT _ _ _
    exact hT
  | cons j js ih =>
    intro s i p hT hvi hvall hch
    have hvj : validStep j := hvall j (by simp)
    have step := tracked_step s d i j p hT hvi hvj hch.1
    exact ih _ j (some i.date) step.1 hvj
      (fun k hk => hvall k (by simp [hk])) hch.2

theorem lastTwoDates_spec :
    ∀ (rest : List IngestStep) (a b : IngestStep) (p : Option String),
      (finalStep a (b :: rest)).date = (lastTwoDates a b rest).2 ∧
      finalPrev a p (b :: rest) = some (lastTwoDates a b rest).1 := by
  intro rest
  induction rest with
  | nil => intro a b p; exact ⟨rfl, rfl⟩
  | cons c cs ih =>
    intro a b p
    exact ih b c (some a.date)

/-- **C4.** After `N ≥ 2` structurally-changing ingests of the same doc_id,
the `prev` pointer holds exactly the date the `last` pointer held
immediately before the final ingest (the date of the second-to-last
ingest), and `last` holds the final date.  Moreover `prev` is written only
on changing ingests and only when the `last` pointer resolved to truthy
text: an unchanged ingest, or a changing ingest with no resolvable `last`,
leaves `prev` untouched. -/
theorem prev_is_depth_one_history :
    (∀ (s : Store) (d : String) (i0 i1 : IngestStep) (rest : List IngestStep),
      (∀ x, s.get (tosPath d x) = none) →
      validStep i0 → (∀ j ∈ i1 :: rest, validStep j) →
      chainChanging i0.md (i1 :: rest) →
      (applyIngests s d (i0 :: i1 :: rest)).get (tosPath d "prev.txt")
        = some (.text (lastTwoDates i0 i1 rest).1) ∧
      (applyIngests s d (i0 :: i1 :: rest)).get (tosPath d "last.txt")
        = some (.text (lastTwoDates i0 i1 rest).2)) ∧
    (∀ (s : Store) (d today content : String) (metadata : Metadata),
      today ≠ "prev" →
      ((store_tos_document s d today content metadata).2.changes_detected
          = false ∨
        lastPtrTruthy s d = false) →
      (store_tos_document s d today content metadata).1.get
        (tosPath d "prev.txt") = s.get (tosPath d "prev.txt"))
    := by
  constructor
  · intro s d i0 i1 rest hEmpty hv0 hvall hch
    have base := tracked_first s d i0 hEmpty hv0
    have inv := tracked_applyIngests d (i1 :: rest) _ i0 none base.1 hv0
      hvall hch
    have spec := lastTwoDates_spec rest i0 i1 none
    obtain ⟨hl, _, _, hp⟩ := inv
    constructor
    · rw [show applyIngests s d (i0 :: i1 :: rest) =
          applyIngests (store_tos_document s d i0.date i0.content i0.md).1 d
            (i1 :: rest) from rfl, hp, spec.2]
      rfl
    · rw [show applyIngests s d (i0 :: i1 :: rest) =
          applyIngests (store_tos_document s d i0.date i0.content i0.md).1 d
            (i1 :: rest) from rfl, hl, spec.1]
  · intro s d today content metadata hprv hside
    have ePt : ("prev.txt" : String) = "prev" ++ ".txt" := by decide
    have hlast2 : (tosAfterCurrent s d content metadata).get
        (tosPath d "last.txt") = s.get (tosPath d "last.txt") := by
      unfold tosAfterCurrent
      rw [Store.get_put, if_neg (tosPath_ne (by decide)), Store.get_put,
        if_neg (tosPath_ne (by decide))]
    by_cases hdet : tosChangesDetected (tosAfterCurrent s d content metadata)
        d metadata = true
    · -- changing ingest: the hypothesis must be "last not resolvable"
      have hres : (store_tos_document s d today content metadata).2.changes_detected
          = true := by
        simp only [store_tos_document]
        rw [hdet]
        rfl
      have htr : lastPtrTruthy s d = false := by
        rcases hside with hfalse | htr
        · rw [hres] at hfalse
          exact absurd hfalse (by decide)
        · exact htr
      unfold lastPtrTruthy at htr
      rcases hget : s.get (tosPath d "last.txt") with _ | b
      · -- pointer absent: no prev write
        have hlast : (tosAfterCurrent s d content metadata).get
            (tosPath d "last.txt") = none := by rw [hlast2, hget]
        rw [store_tos_eq_of_no_last s d today content metadata hlast]
        rw [Store.get_put, if_neg (tosPath_ne (by decide)),
          Store.get_put, if_neg (tosPath_ne (by rw [ePt]; exact txtNeJson "prev" today)),
          Store.get_put, if_neg (tosPath_ne (by rw [ePt]; exact txtKeyNe (fun he => hprv he.symm))),
          Store.get_put, if_neg (tosPath_ne (by decide))]
        unfold tosAfterCurrent
        rw [Store.get_put, if_neg (tosPath_ne (by decide)),
          Store.get_put, if_neg (tosPath_ne (by decide))]
      · -- pointer present but falsy: no prev write
        have hb : b.raw = "" := by
          rw [hget] at htr
          simpa using htr
        have hlast : (tosAfterCurrent s d content metadata).get
            (tosPath d "last.txt") = some b := by rw [hlast2, hget]
        rw [store_tos_eq_of_blank_last s d today content metadata b hlast hb
          hdet]
        rw [Store.get_put, if_neg (tosPath_ne (by decide)),
          Store.get_put, if_neg (tosPath_ne (by rw [ePt]; exact txtNeJson "prev" today)),
          Store.get_put, if_neg (tosPath_ne (by rw [ePt]; exact txtKeyNe (fun he => hprv he.symm))),
          Store.get_put, if_neg (tosPath_ne (by decide))]
        unfold tosAfterCurrent
        rw [Store.get_put, if_neg (tosPath_ne (by decide)),
          Store.get_put, if_neg (tosPath_ne (by decide))]
    · -- unchanged ingest: only current.* and the marker are touched
      have hdet2 : tosChangesDetected (tosAfterCurrent s d content metadata)
          d metadata = false := by
        cases h : tosChangesDetected (tosAfterCurrent s d content metadata)
            d metadata
        · rfl
        · exact absurd h hdet
      rw [store_tos_eq_of_unchanged s d today content metadata hdet2]
      rw [Store.get_del, if_neg (tosPath_ne (by decide))]
      unfold tosAfterCurrent
      rw [Store.get_put, if_neg (tosPath_ne (by decide)),
        Store.get_put, if_neg (tosPath_ne (by decide))]

theorem prev_is_depth_one_history_witness :
    (applyIngests [] "d1"
      [⟨"2024-01-01", "Terms v1.", ⟨⟨some "c1", some "s1", some "f1"⟩⟩⟩,
       ⟨"2024-01-03", "Terms v2.", ⟨⟨some "c2", some "s2", some "f2"⟩⟩⟩,
       ⟨"2024-01-05", "Terms v3.", ⟨⟨some "c3", some "s3", some "f3"⟩⟩⟩]).get
      (tosPath "d1" "prev.txt") = some (.text "2024-01-03") ∧
    (applyIngests [] "d1"
      [⟨"2024-01-01", "Terms v1.", ⟨⟨some "c1", some "s1", some "f1"⟩⟩⟩,
       ⟨"2024-01-03", "Terms v2.", ⟨⟨some "c2", some "s2", some "f2"⟩⟩⟩,
       ⟨"2024-01-05", "Terms v3.", ⟨⟨some "c3", some "s3", some "f3"⟩⟩⟩]).get
      (tosPath "d1" "last.txt") = some (.text "2024-01-05") :=
  have h := prev_is_depth_one_history.1 [] "d1"
    ⟨"2024-01-01", "Terms v1.", ⟨⟨some "c1", some "s1", some "f1"⟩⟩⟩
    ⟨"2024-01-03", "Terms v2.", ⟨⟨some "c2", some "s2", some "f2"⟩⟩⟩
    [⟨"2024-01-05", "Terms v3.", ⟨⟨some "c3", some "s3", some "f3"⟩⟩⟩]
    (fun _ => rfl)
    (by refine ⟨?_, ?_, ?_, ?_, ?_, ?_⟩ <;> decide)
    (by intro j hj; fin_cases hj <;> exact ⟨by decide, by decide, by decide,
      by decide, by decide, by decide⟩)
    ⟨by decide, by decide, trivial⟩
  ⟨h.1, h.2⟩

/-! ## Listing and sorting (`LocalStorage.list_files`,
`LocalStorage.get_document_snapshots`) -/

/-- Path-prefix test used by `list_files` (a prefix ending in `/` lists the
files below that directory). -/
def strStartsWith (s pre : String) : Bool := pre.data.isPrefixOf s.data

/-- Lexicographic comparison on code points — Python's `str` ordering. -/
def listLexLe : List Char → List Char → Bool
  | [], _ => true
  | _ :: _, [] => false
  | a :: as, b :: bs =>
    if a = b then listLexLe as bs else decide (a.toNat < b.toNat)

def strLeB (x y : String) : Bool := listLexLe x.data y.data

/-- Stable insertion sort by a `le` test (Python `sorted` is a stable
comparison sort). -/
def insertByLe (le : String → String → Bool) (x : String) :
    List String → List String
  | [] => [x]
  | y :: ys => if le x y then x :: y :: ys else y :: insertByLe le x ys

def sortByLe (le : String → String → Bool) : List String → List String
  | [] => []
  | x :: xs => insertByLe le x (sortByLe le xs)

/-- `LocalStorage.list_files` without a delimiter: every stored file whose
path lies under the prefix, sorted ascending. -/
def Store.listFiles (s : Store) (pre : String) : List String :=
  sortByLe strLeB
    ((s.filter (fun kv => strStartsWith kv.1 pre)).map (fun kv => kv.1))

/-- `LocalStorage.get_document_snapshots`: list
`snapshots/{doc_id}/`, collect the third path component of every file into
a set, and sort it newest first (`sorted(…, reverse=True)`). -/
def get_document_snapshots (s : Store) (docId : String) : List String :=
  let files := s.listFiles ("snapshots/" ++ docId ++ "/")
  let tss := files.foldl (fun acc p =>
    let parts := (splitChar '/' p.data).map String.mk
    if parts.length ≥ 3 then
      let t := parts.getD 2 ""
      if t ∈ acc then acc else acc ++ [t]
    else acc) []
  sortByLe (fun a b => strLeB b a) tss

/-! ## Diff storage (`LocalStorage.store_diff`,
`LocalStorage.get_latest_diff`, `LocalStorage.load_prompt`) -/

/-- `LocalStorage.store_diff`: write the dated diff pair and refresh the
`latest` pointer pair; returns the timestamp used. -/
def store_diff (s : Store) (docId diffContent : String) (dm : DiffMeta)
    (today : String) : Store × String :=
  let s1 := s.put ("diffs/" ++ docId ++ "/" ++ today ++ "/diff.txt")
    (.text diffContent)
  let s2 := s1.put ("diffs/" ++ docId ++ "/" ++ today ++ "/metadata.json")
    (.diffMeta dm)
  let s3 := s2.put ("latest/" ++ docId ++ "/diff.txt") (.text diffContent)
  let s4 := s3.put ("latest/" ++ docId ++ "/diff_metadata.json") (.diffMeta dm)
  (s4, today)

/-- `LocalStorage.get_latest_diff`: both files must exist (`is None`
checks, not truthiness) and the metadata must parse. -/
def get_latest_diff (s : Store) (docId : String) : Option (String × DiffMeta) :=
  match s.get ("latest/" ++ docId ++ "/diff.txt"),
        s.get ("latest/" ++ docId ++ "/diff_metadata.json") with
  | some c, some m =>
    match m.asDiffMeta with
    | some dm => some (c.raw, dm)
    | none => none
  | _, _ => none

/-- `LocalStorage.load_prompt`: always reads `prompt.txt`, ignoring the
requested name. -/
def load_prompt (s : Store) (promptName : String) : Option String :=
  (s.get "prompt.txt").map Blob.raw

/-! ## `app/routes/generate_diffs.py` -/

/-- `get_fallback_prompt`. -/
def get_fallback_prompt : String :=
  "Compare the two versions of the legal document \x27{document_name}\x27 below and provide a clear, concise summary of the changes.

Focus on:
1. **Substantial Changes**: New terms, modified policies, changed obligations
2. **User Impact**: How changes affect users\x27 rights, responsibilities, or experience
3. **Legal Implications**: Changes in liability, data handling, dispute resolution
4. **Compliance Requirements**: New requirements users must follow

Ignore:
- Minor formatting or wording changes that don\x27t alter meaning
- Updated dates or version numbers
- Cosmetic changes to layout or presentation

**Previous Version:**
{previous_content}

**Current Version:**
{current_content}

**Additional Context:**
{metadata}

Please provide a structured summary with:
- **Summary**: Brief overview of changes
- **Key Changes**: Bulleted list of important modifications
- **User Impact**: How these changes affect users
- **Recommendations**: Any actions users should consider

Be objective, clear, and focus on meaningful changes that matter to users."

/-- `load_diff_prompt`: document-specific prompt, falling back to the
default prompt, falling back to the built-in constant.  (In `LocalStorage`
both `load_prompt` calls read the same `prompt.txt` file.) -/
def load_diff_prompt (s : Store) (docId : String) : String :=
  let docSpecific := load_prompt s (docId ++ "_comparison.txt")
  if strTruthy docSpecific then docSpecific.getD ""
  else
    let dflt := load_prompt s "default_comparison.txt"
    if strTruthy dflt then dflt.getD ""
    else get_fallback_prompt

/-! ## `LLMClient._format_prompt` and `compare_documents` -/

def lookupVal (vals : List (String × String)) (k : String) : String :=
  match vals.find? (fun kv => kv.1 == k) with
  | some kv => kv.2
  | none => ""

/-- Python `str.format(**vals)` for the placeholder syntax the templates
use: `{name}` is replaced by `vals[name]`; replacement text is not
rescanned. -/
def pyFormatAux (vals : List (String × String)) : Nat → List Char → List Char
  | 0, l => l
  | _ + 1, [] => []
  | f + 1, c :: cs =>
    if c == '\x7b' then
      let key := cs.takeWhile (fun e => e != '\x7d')
      let rest := cs.drop (key.length + 1)
      (lookupVal vals (String.mk key)).data ++ pyFormatAux vals f rest
    else c :: pyFormatAux vals f cs

def pyFormat (template : String) (vals : List (String × String)) : String :=
  String.mk (pyFormatAux vals (template.data.length + 1) template.data)

/-- `"\n".join(…)`. -/
def joinLines : List String → String
  | [] => ""
  | [x] => x
  | x :: xs => x ++ "\n" ++ joinLines xs

/-- The content truncation of `_format_prompt`
(`max_content_length = 15000`, Python slice `[:15000]` counts code
points). -/
def truncateContent (s : String) : String :=
  if s.data.length > 15000 then
    String.mk (s.data.take 15000) ++ "...[truncated]"
  else s

/-- The metadata block of `_format_prompt`: one `key: value` line per
entry, skipping the `content_hash` and `raw_content` keys. -/
def metadataLines (metadata : List (String × String)) : String :=
  joinLines ((metadata.filter
    (fun kv => !(kv.1 == "content_hash") && !(kv.1 == "raw_content"))).map
    (fun kv => kv.1 ++ ": " ++ kv.2))

/-- `LLMClient._format_prompt`. -/
def format_prompt (template previousContent currentContent documentName :
    String) (metadata : List (String × String)) : String :=
  pyFormat template
    [("document_name", documentName),
     ("previous_content", truncateContent previousContent),
     ("current_content", truncateContent currentContent),
     ("metadata", metadataLines metadata)]

/-- `LLMClient.compare_documents`: format the prompt and consult the AI
oracle (`none` models an empty response or a raised/transport error). -/
def compare_documents (oracle : String → Option String)
    (previousContent currentContent documentName promptTemplate : String)
    (metadata : List (String × String)) : Option String :=
  oracle (format_prompt promptTemplate previousContent currentContent
    documentName metadata)

/-! ## Claim C9: prompt truncation -/

/-- **C9.** `_format_prompt` substitutes into the template the first 15000
characters of any `previous_content`/`current_content` longer than 15000
characters, followed by the visible `...[truncated]` marker; shorter
inputs are substituted unchanged. -/
theorem prompt_truncates_long_inputs (template documentName
    previousContent currentContent : String)
    (metadata : List (String × String)) :
    format_prompt template previousContent currentContent documentName
        metadata =
      pyFormat template
        [("document_name", documentName),
         ("previous_content", truncateContent previousContent),
         ("current_content", truncateContent currentContent),
         ("metadata", metadataLines metadata)] ∧
    (∀ sIn : String, sIn.data.length ≤ 15000 → truncateContent sIn = sIn) ∧
    (∀ sIn : String, sIn.data.length > 15000 →
      truncateContent sIn = String.mk (sIn.data.take 15000)
        ++ "...[truncated]") := by
  refine ⟨rfl, ?_, ?_⟩
  · intro sIn h
    unfold truncateContent
    rw [if_neg (Nat.not_lt.mpr h)]
  · intro sIn h
    unfold truncateContent
    rw [if_pos h]

/-! ## `process_document_diff` -/

/-- The fields of a document configuration entry the diff route reads
(`doc_config.get("id")`, `.get("name", doc_id)`, `.get("url", "")`). -/
structure DocConfig where
  id : String := ""
  name : Option String := none
  url : String := ""
deriving DecidableEq, Repr

/-- The `DiffResult` response model. -/
structure DiffResult where
  document_id : String
  document_name : String
  success : Bool
  diff_generated : Bool
  timestamp : Option String := none
  previous_snapshot_timestamp : Option String := none
  current_snapshot_timestamp : Option String := none
  error_message : Option String := none
  diff_length : Option Nat := none
deriving DecidableEq, Repr

/-- Result of one `process_document_diff` call: the `DiffResult`, the store
after the call, and how many times the AI collaborator was invoked. -/
structure DiffOutcome where
  result : DiffResult
  store : Store
  llmCalls : Nat
deriving DecidableEq, Repr

/-- The step-3 check of `process_document_diff`: the most recently stored
diff already records exactly this `(previous, current)` snapshot pair. -/
def diffAlreadyCovered (s : Store) (docId curTs prevTs : String) : Bool :=
  match get_latest_diff s docId with
  | some (_, dm) =>
    dm.current_snapshot_timestamp == some curTs &&
      dm.previous_snapshot_timestamp == some prevTs
  | none => false

/-- Python `needle in hay` on strings (substring containment). -/
def hasSubstr (needle : List Char) : List Char → Bool
  | [] => needle.isEmpty
  | c :: t => needle.isPrefixOf (c :: t) || hasSubstr needle t

/-- Lines 246–301 of `process_document_diff`: load the prompt, invoke the
AI collaborator, and on a truthy response store the diff artifact and the
refreshed `latest` pointer. -/
def generate_and_store (cfg : DocConfig) (s : Store)
    (oracle : String → Option String)
    (llmModel genTime today previousTimestamp currentTimestamp
      previousContent currentContent : String) : DiffOutcome :=
  let docId := cfg.id
  let docName := cfg.name.getD docId
  let promptTemplate := load_diff_prompt s docId
  let diffContent := compare_documents oracle previousContent currentContent
    docName promptTemplate
    [("document_id", docId), ("previous_timestamp", previousTimestamp),
     ("current_timestamp", currentTimestamp), ("url", cfg.url)]
  if strTruthy diffContent then
    let dc := diffContent.getD ""
    let dm : DiffMeta :=
      { document_id := docId
        document_name := docName
        previous_snapshot_timestamp := some previousTimestamp
        current_snapshot_timestamp := some currentTimestamp
        llm_model := llmModel
        prompt_template_used :=
          if hasSubstr "default".data promptTemplate.data then
            "default_comparison.txt"
          else "custom"
        generated_at := genTime
        url := cfg.url }
    let sd := store_diff s docId dc dm today
    ⟨⟨docId, docName, true, true, some sd.2, some previousTimestamp,
      some currentTimestamp, none, some dc.data.length⟩, sd.1, 1⟩
  else
    ⟨⟨docId, docName, false, false, none, some previousTimestamp,
      some currentTimestamp, some "LLM failed to generate diff content",
      none⟩, s, 1⟩

/-- `process_document_diff` of `app/routes/generate_diffs.py`: the
per-document diff pipeline (maybe_generate_diff).  Note that missing or
unparseable snapshot *metadata* takes different paths: missing (falsy)
metadata skips the fingerprint gate entirely and proceeds to generation,
while metadata that fails `json.loads` raises into the outer `except`,
producing a failure result. -/
def process_document_diff (cfg : DocConfig) (s : Store)
    (oracle : String → Option String) (llmModel genTime today : String)
    (force_regenerate : Bool) : DiffOutcome :=
  let docId := cfg.id
  let docName := cfg.name.getD docId
  if docId = "" then
    ⟨⟨"unknown", docName, false, false, none, none, none,
      some "Missing document ID in configuration", none⟩, s, 0⟩
  else
    let snapshots := get_document_snapshots s docId
    if snapshots.length < 2 then
      ⟨⟨docId, docName, true, false, none, none, none,
        some ("Need at least 2 snapshots for diff, found "
          ++ toString snapshots.length), none⟩, s, 0⟩
    else
      let currentTimestamp := snapshots.getD 0 ""
      let previousTimestamp := snapshots.getD 1 ""
      let alreadyCovered :=
        if force_regenerate then false
        else diffAlreadyCovered s docId currentTimestamp previousTimestamp
      if alreadyCovered then
        ⟨⟨docId, docName, true, false, none, some previousTimestamp,
          some currentTimestamp,
          some "Diff already exists for these snapshots", none⟩, s, 0⟩
      else
        let previousContent := (s.get ("snapshots/" ++ docId ++ "/" ++
          previousTimestamp ++ "/content.txt")).map Blob.raw
        let currentContent := (s.get ("snapshots/" ++ docId ++ "/" ++
          currentTimestamp ++ "/content.txt")).map Blob.raw
        if !(strTruthy previousContent && strTruthy currentContent) then
          ⟨⟨docId, docName, false, false, none, none, none,
            some "Could not load snapshot content for comparison", none⟩,
           s, 0⟩
        else
          let pm := s.get ("snapshots/" ++ docId ++ "/" ++
            previousTimestamp ++ "/metadata.json")
          let cm := s.get ("snapshots/" ++ docId ++ "/" ++
            currentTimestamp ++ "/metadata.json")
          if strTruthy (pm.map Blob.raw) && strTruthy (cm.map Blob.raw) then
            match pm.bind Blob.asMeta, cm.bind Blob.asMeta with
            | some pmd, some cmd =>
              if !(should_generate_diff pmd.hashes cmd.hashes) then
                ⟨⟨docId, docName, true, false, none, some previousTimestamp,
                  some currentTimestamp,
                  some "No meaningful content changes detected", none⟩, s, 0⟩
              else
                generate_and_store cfg s oracle llmModel genTime today
                  previousTimestamp currentTimestamp
                  (previousContent.getD "") (currentContent.getD "")
            | _, _ =>
              ⟨⟨docId, docName, false, false, none, none, none,
                some "Expecting value: JSONDecodeError", none⟩, s, 0⟩
          else
            generate_and_store cfg s oracle llmModel genTime today
              previousTimestamp currentTimestamp
              (previousContent.getD "") (currentContent.getD "")

/-! ## Claim C5: the fingerprint gate -/

/-- **C5.** When the two newest snapshots' contents and metadata all load
and their fingerprint hashes are equal, present and non-empty,
`maybe_generate_diff` (without force, with no already-covering diff)
returns success with `diff_generated = false` reporting no meaningful
change, leaves the store untouched, and does not invoke the AI
collaborator. -/
theorem fingerprint_gate_skips_ai (cfg : DocConfig) (s : Store)
    (oracle : String → Option String) (llmModel genTime today : String)
    (curTs prevTs : String) (rest : List String) (pc cc f : String)
    (pmd cmd : Metadata)
    (hid : cfg.id ≠ "")
    (hsnaps : get_document_snapshots s cfg.id = curTs :: prevTs :: rest)
    (hcov : diffAlreadyCovered s cfg.id curTs prevTs = false)
    (hpc : s.get ("snapshots/" ++ cfg.id ++ "/" ++ prevTs ++ "/content.txt")
      = some (.text pc)) (hpcne : pc ≠ "")
    (hcc : s.get ("snapshots/" ++ cfg.id ++ "/" ++ curTs ++ "/content.txt")
      = some (.text cc)) (hccne : cc ≠ "")
    (hpm : s.get ("snapshots/" ++ cfg.id ++ "/" ++ prevTs ++ "/metadata.json")
      = some (.meta pmd))
    (hcm : s.get ("snapshots/" ++ cfg.id ++ "/" ++ curTs ++ "/metadata.json")
      = some (.meta cmd))
    (hfp : pmd.hashes.fingerprint = some f)
    (hfc : cmd.hashes.fingerprint = some f) (hf : f ≠ "") :
    process_document_diff cfg s oracle llmModel genTime today false =
      ⟨⟨cfg.id, cfg.name.getD cfg.id, true, false, none, some prevTs,
        some curTs, some "No meaningful content changes detected", none⟩,
       s, 0⟩ := by
  have hgate : should_generate_diff pmd.hashes cmd.hashes = false := by
    unfold should_generate_diff compare_hashes cmpField
    rw [hfp, hfc]
    simp [has_content_changed, hf]
  simp only [process_document_diff]
  rw [if_neg hid, hsnaps]
  simp only [List.getD_cons_zero, List.getD_cons_succ]
  rw [if_neg (by simp only [List.length_cons]; omega), hcov]
  simp only [Bool.false_eq_true, if_false]
  rw [hpc, hcc, hpm, hcm]
  simp only [Option.map_some', Blob.raw, Option.some_bind, Blob.asMeta]
  have hpct : strTruthy (some pc) = true := by simp [strTruthy, hpcne]
  have hcct : strTruthy (some cc) = true := by simp [strTruthy, hccne]
  have hsj : strTruthy (some "serialized-json") = true := by decide
  rw [hpct, hcct, hsj]
  simp only [Bool.and_self, Bool.not_true, Bool.false_eq_true, if_false,
    if_true]
  rw [hgate]
  simp

theorem fingerprint_gate_skips_ai_witness :
    get_document_snapshots
      [("snapshots/d1/2024-01-02/content.txt", Blob.text "Terms v2."),
       ("snapshots/d1/2024-01-02/metadata.json",
         Blob.meta ⟨⟨some "c2", some "s2", some "f1"⟩⟩),
       ("snapshots/d1/2024-01-01/content.txt", Blob.text "Terms v1."),
       ("snapshots/d1/2024-01-01/metadata.json",
         Blob.meta ⟨⟨some "c1", some "s1", some "f1"⟩⟩)] "d1"
      = ["2024-01-02", "2024-01-01"] ∧
    process_document_diff ⟨"d1", none, ""⟩
      [("snapshots/d1/2024-01-02/content.txt", Blob.text "Terms v2."),
       ("snapshots/d1/2024-01-02/metadata.json",
         Blob.meta ⟨⟨some "c2", some "s2", some "f1"⟩⟩),
       ("snapshots/d1/2024-01-01/content.txt", Blob.text "Terms v1."),
       ("snapshots/d1/2024-01-01/metadata.json",
         Blob.meta ⟨⟨some "c1", some "s1", some "f1"⟩⟩)]
      (fun _ => some "AI summary") "gpt" "t0" "2024-01-05" false =
      ⟨⟨"d1", "d1", true, false, none, some "2024-01-01", some "2024-01-02",
        some "No meaningful content changes detected", none⟩,
       [("snapshots/d1/2024-01-02/content.txt", Blob.text "Terms v2."),
        ("snapshots/d1/2024-01-02/metadata.json",
          Blob.meta ⟨⟨some "c2", some "s2", some "f1"⟩⟩),
        ("snapshots/d1/2024-01-01/content.txt", Blob.text "Terms v1."),
        ("snapshots/d1/2024-01-01/metadata.json",
          Blob.meta ⟨⟨some "c1", some "s1", some "f1"⟩⟩)], 0⟩ :=
  ⟨by decide,
   fingerprint_gate_skips_ai ⟨"d1", none, ""⟩
     [("snapshots/d1/2024-01-02/content.txt", Blob.text "Terms v2."),
      ("snapshots/d1/2024-01-02/metadata.json",
        Blob.meta ⟨⟨some "c2", some "s2", some "f1"⟩⟩),
      ("snapshots/d1/2024-01-01/content.txt", Blob.text "Terms v1."),
      ("snapshots/d1/2024-01-01/metadata.json",
        Blob.meta ⟨⟨some "c1", some "s1", some "f1"⟩⟩)]
     (fun _ => some "AI summary") "gpt" "t0" "2024-01-05"
     "2024-01-02" "2024-01-01" [] "Terms v1." "Terms v2." "f1"
     ⟨⟨some "c1", some "s1", some "f1"⟩⟩ ⟨⟨some "c2", some "s2", some "f1"⟩⟩
     (by decide) (by decide) (by decide) (by decide) (by decide) (by decide)
     (by decide) (by decide) (by decide) rfl rfl (by decide)⟩

/-! ## Claim C6: missing snapshot data

The claim says a missing content *or metadata* file fails the document
without invoking the AI.  The code does fail on missing content, but
missing metadata only skips the fingerprint gate and proceeds to invoke
the AI collaborator, so the metadata half of the claim is refuted. -/

/-- **C6, counterexample.** Two dated snapshots whose contents load but
whose metadata files are absent: `process_document_diff` does *not* return
a failure — it skips the fingerprint gate, invokes the AI collaborator
once, and stores a diff (`success = true`, `diff_generated = true`),
contradicting the claim's `success = false` / no-AI-call for missing
metadata. -/
theorem missing_metadata_generates_anyway :
    (process_document_diff ⟨"d1", none, ""⟩
      [("snapshots/d1/2024-01-02/content.txt", Blob.text "Terms v2."),
       ("snapshots/d1/2024-01-01/content.txt", Blob.text "Terms v1.")]
      (fun _ => some "AI summary") "gpt" "t0" "2024-01-05" false).result.success
      = true ∧
    (process_document_diff ⟨"d1", none, ""⟩
      [("snapshots/d1/2024-01-02/content.txt", Blob.text "Terms v2."),
       ("snapshots/d1/2024-01-01/content.txt", Blob.text "Terms v1.")]
      (fun _ => some "AI summary") "gpt" "t0" "2024-01-05"
      false).result.diff_generated = true ∧
    (process_document_diff ⟨"d1", none, ""⟩
      [("snapshots/d1/2024-01-02/content.txt", Blob.text "Terms v2."),
       ("snapshots/d1/2024-01-01/content.txt", Blob.text "Terms v1.")]
      (fun _ => some "AI summary") "gpt" "t0" "2024-01-05" false).llmCalls
      = 1 := by
  decide

/-- **C6, amended.** With at least two dated snapshots, when either
snapshot's *content* cannot be loaded (missing file or empty text) and the
pair is not already covered by the latest stored diff,
`process_document_diff` returns a failure result (`success = false`,
`diff_generated = false`), leaves the store untouched, and does not invoke
the AI collaborator.  (Missing metadata, by contrast, proceeds to
generation — see the counterexample.) -/
theorem missing_content_fails_without_ai (cfg : DocConfig) (s : Store)
    (oracle : String → Option String) (llmModel genTime today : String)
    (force : Bool) (curTs prevTs : String) (rest : List String)
    (hid : cfg.id ≠ "")
    (hsnaps : get_document_snapshots s cfg.id = curTs :: prevTs :: rest)
    (hcov : (if force then false
      else diffAlreadyCovered s cfg.id curTs prevTs) = false)
    (hmiss : strTruthy ((s.get ("snapshots/" ++ cfg.id ++ "/" ++ prevTs ++
        "/content.txt")).map Blob.raw) = false ∨
      strTruthy ((s.get ("snapshots/" ++ cfg.id ++ "/" ++ curTs ++
        "/content.txt")).map Blob.raw) = false) :
    process_document_diff cfg s oracle llmModel genTime today force =
      ⟨⟨cfg.id, cfg.name.getD cfg.id, false, false, none, none, none,
        some "Could not load snapshot content for comparison", none⟩,
       s, 0⟩ := by
  simp only [process_document_diff]
  rw [if_neg hid, hsnaps]
  simp only [List.getD_cons_zero, List.getD_cons_succ]
  rw [if_neg (by simp only [List.length_cons]; omega), hcov]
  simp only [Bool.false_eq_true, if_false]
  have hcond : (strTruthy ((s.get ("snapshots/" ++ cfg.id ++ "/" ++ prevTs ++
      "/content.txt")).map Blob.raw) &&
      strTruthy ((s.get ("snapshots/" ++ cfg.id ++ "/" ++ curTs ++
      "/content.txt")).map Blob.raw)) = false := by
    rcases hmiss with h | h <;> simp [h]
  rw [hcond]
  simp

theorem missing_content_fails_without_ai_witness :
    get_document_snapshots
      [("snapshots/d1/2024-01-02/content.txt", Blob.text "Terms v2."),
       ("snapshots/d1/2024-01-01/metadata.json",
         Blob.meta ⟨⟨some "c1", some "s1", some "f1"⟩⟩)] "d1"
      = ["2024-01-02", "2024-01-01"] ∧
    process_document_diff ⟨"d1", none, ""⟩
      [("snapshots/d1/2024-01-02/content.txt", Blob.text "Terms v2."),
       ("snapshots/d1/2024-01-01/metadata.json",
         Blob.meta ⟨⟨some "c1", some "s1", some "f1"⟩⟩)]
      (fun _ => some "AI summary") "gpt" "t0" "2024-01-05" false =
      ⟨⟨"d1", "d1", false, false, none, none, none,
        some "Could not load snapshot content for comparison", none⟩,
       [("snapshots/d1/2024-01-02/content.txt", Blob.text "Terms v2."),
        ("snapshots/d1/2024-01-01/metadata.json",
          Blob.meta ⟨⟨some "c1", some "s1", some "f1"⟩⟩)], 0⟩ :=
  ⟨by decide,
   missing_content_fails_without_ai ⟨"d1", none, ""⟩
     [("snapshots/d1/2024-01-02/content.txt", Blob.text "Terms v2."),
      ("snapshots/d1/2024-01-01/metadata.json",
        Blob.meta ⟨⟨some "c1", some "s1", some "f1"⟩⟩)]
     (fun _ => some "AI summary") "gpt" "t0" "2024-01-05" false
     "2024-01-02" "2024-01-01" []
     (by decide) (by decide) (by decide) (Or.inl (by decide))⟩

/-! ## Claim C1: ingest and diff generation disagree about the snapshot
namespace

`process_document` (the ingest route) persists documents through
`store_tos_document`, which writes every blob under `tos/{doc_id}/…`;
`process_document_diff` looks for history via `get_document_snapshots`,
which lists `snapshots/{doc_id}/…` — a legacy layout that nothing in the
repository writes (`store_document_snapshot` has no callers).  A document
whose version store was populated only by ingest therefore always shows
zero snapshots to the diff route: the AI collaborator can never be reached,
contradicting spec Scenario D. -/

/-- **C1 (code bug).** For any store populated only by `store_tos_document`
ingests (all keys outside the `snapshots/{doc_id}/` namespace),
`maybe_generate_diff` reports "not enough history, found 0", stores
nothing, and never invokes the AI collaborator — even when two dated
snapshots of the document exist under `tos/{doc_id}/`. -/
theorem tos_only_store_never_reaches_ai (cfg : DocConfig) (s : Store)
    (oracle : String → Option String) (llmModel genTime today : String)
    (force : Bool) (hid : cfg.id ≠ "")
    (htos : ∀ kv ∈ s,
      strStartsWith kv.1 ("snapshots/" ++ cfg.id ++ "/") = false) :
    process_document_diff cfg s oracle llmModel genTime today force =
      ⟨⟨cfg.id, cfg.name.getD cfg.id, true, false, none, none, none,
        some "Need at least 2 snapshots for diff, found 0", none⟩, s, 0⟩ := by
  have hfil : ∀ (l : Store),
      (∀ kv ∈ l, strStartsWith kv.1 ("snapshots/" ++ cfg.id ++ "/") = false) →
      l.filter (fun kv => strStartsWith kv.1 ("snapshots/" ++ cfg.id ++ "/"))
        = [] := by
    intro l hl
    induction l with
    | nil => rfl
    | cons kv tl ih =>
      have h1 := hl kv (by simp)
      rw [List.filter_cons]
      simp only [h1, Bool.false_eq_true, if_false]
      exact ih (fun k hk => hl k (by simp [hk]))
  have hsnaps : get_document_snapshots s cfg.id = [] := by
    unfold get_document_snapshots Store.listFiles
    rw [hfil s htos]
    rfl
  simp only [process_document_diff]
  rw [if_neg hid, hsnaps]
  rfl

/-- The store of spec Scenarios A–C: two structurally-changing ingests of
`d1`, producing dated ToS snapshots `2024-01-01` and `2024-01-03`. -/
def scenarioStore : Store :=
  applyIngests [] "d1"
    [⟨"2024-01-01", "Terms v1. Effective January 1, 2024.",
      ⟨⟨some "c1", some "s1", some "f1"⟩⟩⟩,
     ⟨"2024-01-03", "Terms v2. Effective January 1, 2024. New clause added.",
      ⟨⟨some "c2", some "s2", some "f2"⟩⟩⟩]

theorem tos_only_store_never_reaches_ai_witness :
    scenarioStore.get (tosPath "d1" "2024-01-01.txt")
      = some (.text "Terms v1. Effective January 1, 2024.") ∧
    scenarioStore.get (tosPath "d1" "2024-01-03.txt")
      = some (.text "Terms v2. Effective January 1, 2024. New clause added.") ∧
    (∀ kv ∈ scenarioStore,
      strStartsWith kv.1 ("snapshots/" ++ "d1" ++ "/") = false) ∧
    process_document_diff ⟨"d1", some "Doc One", "http://example"⟩
      scenarioStore (fun _ => some "AI summary") "gpt" "t0" "2024-01-05"
      false =
      ⟨⟨"d1", "Doc One", true, false, none, none, none,
        some "Need at least 2 snapshots for diff, found 0", none⟩,
       scenarioStore, 0⟩ :=
  have h : ∀ kv ∈ scenarioStore,
      strStartsWith kv.1 ("snapshots/" ++ "d1" ++ "/") = false := by decide
  ⟨by decide, by decide, h,
   tos_only_store_never_reaches_ai ⟨"d1", some "Doc One", "http://example"⟩
     scenarioStore (fun _ => some "AI summary") "gpt" "t0" "2024-01-05"
     false (by decide) h⟩

/-! ## Claim C8: fewer than two snapshots is a structured no-op -/

/-- **C8.** With fewer than two dated snapshots, `process_document_diff`
returns a structured non-error result (`success = true`,
`diff_generated = false`) reporting insufficient history, leaves the store
untouched, and never invokes the AI collaborator. -/
theorem insufficient_history_is_not_an_error (cfg : DocConfig) (s : Store)
    (oracle : String → Option String) (llmModel genTime today : String)
    (force : Bool) (hid : cfg.id ≠ "")
    (hlen : (get_document_snapshots s cfg.id).length < 2) :
    process_document_diff cfg s oracle llmModel genTime today force =
      ⟨⟨cfg.id, cfg.name.getD cfg.id, true, false, none, none, none,
        some ("Need at least 2 snapshots for diff, found "
          ++ toString (get_document_snapshots s cfg.id).length), none⟩,
       s, 0⟩ := by
  simp only [process_document_diff]
  rw [if_neg hid, if_pos hlen]

theorem insufficient_history_is_not_an_error_witness :
    ("d1" : String) ≠ "" ∧
    (get_document_snapshots
      [("snapshots/d1/2024-01-01/content.txt", Blob.text "Terms v1.")]
      "d1").length < 2 ∧
    process_document_diff ⟨"d1", none, ""⟩
      [("snapshots/d1/2024-01-01/content.txt", Blob.text "Terms v1.")]
      (fun _ => some "AI summary") "gpt" "t0" "2024-01-02" false =
      ⟨⟨"d1", "d1", true, false, none, none, none,
        some "Need at least 2 snapshots for diff, found 1", none⟩,
       [("snapshots/d1/2024-01-01/content.txt", Blob.text "Terms v1.")], 0⟩ :=
  have h2 : (get_document_snapshots
      [("snapshots/d1/2024-01-01/content.txt", Blob.text "Terms v1.")]
      "d1").length < 2 := by decide
  ⟨by decide, h2, by
    rw [insufficient_history_is_not_an_error ⟨"d1", none, ""⟩
      [("snapshots/d1/2024-01-01/content.txt", Blob.text "Terms v1.")]
      (fun _ => some "AI summary") "gpt" "t0" "2024-01-02" false
      (by decide) h2]
    rfl⟩

theorem prompt_truncates_long_inputs_witness :
    (String.mk (List.replicate 15001 'a')).data.length > 15000 ∧
    ("short" : String).data.length ≤ 15000 ∧
    truncateContent (String.mk (List.replicate 15001 'a'))
      = String.mk ((String.mk (List.replicate 15001 'a')).data.take 15000)
        ++ "...[truncated]" ∧
    truncateContent "short" = "short" :=
  have hl : (String.mk (List.replicate 15001 'a')).data.length > 15000 := by
    show (List.replicate 15001 'a').length > 15000
    rw [List.length_replicate]
    decide
  have hs : ("short" : String).data.length ≤ 15000 := by decide
  ⟨hl, hs,
   (prompt_truncates_long_inputs "" "" "" "" []).2.2 _ hl,
   (prompt_truncates_long_inputs "" "" "" "" []).2.1 "short" hs⟩

end TosMonitor
